import Mathlib

/-!
Verification development for the Battle of Tunes battle-orchestration code.

The participants SQLite tables are modelled as lists of rows; each database
operation of the Python sources becomes a pure function from the old table
(plus its inputs) to the new table and the returned value.  Timestamps are
abstracted as natural numbers (the value of datetime now at call time is an
explicit argument), audio blobs and file paths as opaque strings, and the
network boundary of an HTTP call as an explicit outcome argument.
-/

/-- Row of the `participants` table created in submissionhandler.py
(schema lines 41-53): columns user_id, username, wallet_address, audio_file,
chat_id, verified, battle_start_timestamp, battle_active, with primary key
(user_id, chat_id).  The audio blob is kept as an opaque `String`. -/
structure Row where
  user_id : Nat
  username : String
  wallet_address : String
  audio_file : Option String
  chat_id : Nat
  verified : Bool
  battle_start_timestamp : Option Nat
  battle_active : Bool
deriving DecidableEq, Repr

/-- Comparison realising `ORDER BY battle_start_timestamp DESC NULLS LAST`
used by `get_all_inactive_participants`: larger timestamps first, rows with a
NULL timestamp after every row with one. -/
def tsDescNullsLast (a b : Row) : Bool :=
  match a.battle_start_timestamp, b.battle_start_timestamp with
  | some x, some y => decide (y ≤ x)
  | some _, none => true
  | none, some _ => false
  | none, none => true

/-- ParticipantsDatabase.get_all_inactive_participants (submissionhandler.py
lines 64-82): SELECT user_id, username, wallet_address, chat_id FROM
participants WHERE battle_active = 0 ORDER BY battle_start_timestamp DESC
NULLS LAST.  Note the query filters only on battle_active; the verified
column plays no role. -/
def get_all_inactive_participants (db : List Row) : List (Nat × String × String × Nat) :=
  ((db.filter (fun r => !r.battle_active)).mergeSort tsDescNullsLast).map
    (fun r => (r.user_id, r.username, r.wallet_address, r.chat_id))

/-- ParticipantsDatabase.activate_battle_for_users (submissionhandler.py lines
133-153): UPDATE participants SET battle_active = 1, battle_start_timestamp =
datetime(now) WHERE user_id IN (…) AND chat_id = ?; then returns True.  The
only False return is the sqlite3.Error handler, which cannot fire in this
pure model; there is no check that the targeted rows exist or are idle. -/
def activate_battle_for_users (db : List Row) (user_ids : List Nat) (chat : Nat)
    (now : Nat) : List Row × Bool :=
  (db.map (fun r =>
      if user_ids.contains r.user_id && r.chat_id == chat then
        { r with battle_active := true, battle_start_timestamp := some now }
      else r),
   true)

/-- ParticipantsDatabase.check_all_participants_submitted (submissionhandler.py
lines 175-193): SELECT COUNT(*) … WHERE chat_id = ? AND battle_active = 1 AND
audio_file IS NULL, returning whether that count is zero. -/
def check_all_participants_submitted (db : List Row) (chat : Nat) : Bool :=
  (db.countP (fun r => r.chat_id == chat && r.battle_active && r.audio_file.isNone)) == 0

/-- Wallet/audio pair returned by get_participants_for_submission. -/
structure SubmissionEntry where
  wallet_address : String
  audio_file : String
deriving DecidableEq, Repr

/-- ParticipantsDatabase.get_participants_for_submission (submissionhandler.py
lines 195-218): SELECT wallet_address, audio_file FROM participants WHERE
chat_id = ? AND battle_active = 1 AND audio_file IS NOT NULL, returned as
records in table order. -/
def get_participants_for_submission (db : List Row) (chat : Nat) : List SubmissionEntry :=
  db.filterMap (fun r =>
    if r.chat_id == chat && r.battle_active then
      r.audio_file.map (fun a => { wallet_address := r.wallet_address, audio_file := a })
    else none)

/-- ParticipantsDatabase.reset_battle (submissionhandler.py lines 220-235):
DELETE FROM participants WHERE chat_id = ? AND battle_active = 1.  The rows of
the finished battle are removed outright, not set back to idle. -/
def reset_battle (db : List Row) (chat : Nat) : List Row :=
  db.filter (fun r => !(r.chat_id == chat && r.battle_active))

/-! Variant store of stakingbot.py.  Its `participants` table (schema lines
48-58) has primary key user_id alone, a UNIQUE constraint on wallet_address,
and no chat_id column. -/

/-- Row of the stakingbot.py `participants` table. -/
structure SRow where
  user_id : Nat
  username : String
  wallet_address : String
  audio_file : Option String
  verified : Bool
  battle_start_timestamp : Option Nat
  battle_active : Bool
deriving DecidableEq, Repr

/-- ParticipantsDatabase.add_participant (stakingbot.py lines 63-87):
INSERT OR REPLACE INTO participants (user_id, username, wallet_address,
verified, battle_start_timestamp, battle_active) VALUES (?, ?, ?, 1,
datetime(now), 1).  INSERT OR REPLACE first deletes every row conflicting on
the user_id primary key or the UNIQUE wallet_address and then inserts the new
row; columns absent from the list (audio_file) take their default NULL.  Note
the inserted row has battle_active = 1. -/
def add_participant (db : List SRow) (uid : Nat) (uname wallet : String)
    (now : Nat) : List SRow :=
  (db.filter (fun r => !(r.user_id == uid || r.wallet_address == wallet))) ++
    [{ user_id := uid, username := uname, wallet_address := wallet,
       audio_file := none, verified := true, battle_start_timestamp := some now,
       battle_active := true }]

/-- ParticipantsDatabase.update_participant_audio (stakingbot.py lines
147-168): UPDATE participants SET audio_file = ? WHERE user_id = ? AND
battle_active = 1.  Rows that are not in an active battle are silently left
unchanged; the method returns nothing. -/
def s_update_participant_audio (db : List SRow) (uid : Nat) (file : String) :
    List SRow :=
  db.map (fun r =>
    if r.user_id == uid && r.battle_active then { r with audio_file := some file }
    else r)

/-- ParticipantsDatabase.reset_battle (stakingbot.py lines 170-188):
UPDATE participants SET battle_active = 0, audio_file = NULL,
battle_start_timestamp = NULL, with no WHERE clause: every row of the table is
returned to the idle state. -/
def s_reset_battle (db : List SRow) : List SRow :=
  db.map (fun r =>
    { r with battle_active := false, audio_file := none,
             battle_start_timestamp := none })

/-! Variant store of musicgenbot.py.  Its `participants` table (schema lines
45-58) stores the audio as audio_filename plus an audio_data blob and keeps
primary key (user_id, chat_id). -/

/-- Row of the musicgenbot.py `participants` table. -/
structure MRow where
  user_id : Nat
  username : String
  wallet_address : String
  audio_filename : Option String
  audio_data : Option String
  chat_id : Nat
  verified : Bool
  battle_start_timestamp : Option Nat
  battle_active : Bool
deriving DecidableEq, Repr

/-- ParticipantsDatabase.update_participant_audio (musicgenbot.py lines
131-167).  It first runs SELECT COUNT(*) FROM participants WHERE user_id = ?
and returns (False, "Participant not found") when that count is zero;
otherwise it reads the audio file (abstracted here as the given fileData and
its basename fileName) and runs UPDATE participants SET audio_data = ?,
audio_filename = ? WHERE user_id = ?, returning (True, "Audio file updated
successfully").  Neither query mentions battle_active or chat_id. -/
def m_update_participant_audio (db : List MRow) (uid : Nat)
    (fileData fileName : String) : List MRow × Bool × String :=
  if (db.countP (fun r => r.user_id == uid)) == 0 then
    (db, false, "Participant not found")
  else
    (db.map (fun r =>
        if r.user_id == uid then
          { r with audio_data := some fileData, audio_filename := some fileName }
        else r),
     true, "Audio file updated successfully")

/-! Evaluation dispatch (submissionhandler.py, SongBattleBot). -/

/-- One part of the aiohttp.FormData payload built by submit_to_evaluation. -/
structure FormField where
  name : String
  value : String
  filename : Option String
  content_type : Option String
deriving DecidableEq, Repr

/-- The audio part added for the submission at position idx (0-based), mirroring
submissionhandler.py lines 411-436: field name audio_{idx+1}, filename
track{idx+1}.mp3, content type audio/mpeg, value the audio blob. -/
def audio_field (idx : Nat) (s : SubmissionEntry) : FormField :=
  { name := "audio_" ++ toString (idx + 1)
    value := s.audio_file
    filename := some ("track" ++ toString (idx + 1) ++ ".mp3")
    content_type := some "audio/mpeg" }

/-- The wallet part added for the submission at position idx (0-based),
mirroring submissionhandler.py lines 438-446: field name wallet_{idx+1},
value the wallet address, no filename or content type. -/
def wallet_field (idx : Nat) (s : SubmissionEntry) : FormField :=
  { name := "wallet_" ++ toString (idx + 1)
    value := s.wallet_address
    filename := none
    content_type := none }

/-- The audio parts for the submissions starting at position idx, one per
submission in list order (the first enumerate loop of submit_to_evaluation). -/
def audio_fields (idx : Nat) : List SubmissionEntry → List FormField
  | [] => []
  | s :: rest => audio_field idx s :: audio_fields (idx + 1) rest

/-- The wallet parts for the submissions starting at position idx, one per
submission in list order (the second enumerate loop of submit_to_evaluation). -/
def wallet_fields (idx : Nat) : List SubmissionEntry → List FormField
  | [] => []
  | s :: rest => wallet_field idx s :: wallet_fields (idx + 1) rest

/-- The complete multipart payload of submit_to_evaluation (submissionhandler.py
lines 400-446): all audio parts first, in submission order, then all wallet
parts in the same order. -/
def build_form_data (subs : List SubmissionEntry) : List FormField :=
  audio_fields 0 subs ++ wallet_fields 0 subs

/-- Parsed JSON body of a 200 evaluator response; only the fields the claims
touch are carried. -/
structure EvalResult where
  winner_wallet : String
  winning_track : String
deriving DecidableEq, Repr

/-- Outcome of the POST to the evaluator as seen by submit_to_evaluation: ok
with a parsed body, or an exception (aiohttp network error, timeout, or the
raise on a non-200 status at line 476). -/
inductive EvalOutcome where
  | ok : EvalResult → EvalOutcome
  | failed : String → EvalOutcome
deriving DecidableEq, Repr

/-- The failure notice sent at submissionhandler.py lines 552-555. -/
def evaluationErrorMessage : String :=
  "An error occurred during battle evaluation. Please try again later."

/-- State-relevant result of SongBattleBot.submit_to_evaluation: the table
after the call, the multipart payload that was posted, and the message sent to
the chat. -/
structure DispatchResult where
  db : List Row
  sentForm : List FormField
  message : String
deriving DecidableEq, Repr

/-- SongBattleBot.submit_to_evaluation (submissionhandler.py lines 393-555).
It snapshots get_participants_for_submission, builds the multipart payload and
posts it; on a parsed 200 response it sends the rankings message and then
calls reset_battle (line 545); on any exception — network error, timeout, or
the raise for a non-200 status — the except block at lines 549-555 only sends
evaluationErrorMessage and the table is left untouched (reset_battle is never
reached).  The rankings text formatting is abstracted to a constant label. -/
def submit_to_evaluation (db : List Row) (chat : Nat) (outcome : EvalOutcome) :
    DispatchResult :=
  let subs := get_participants_for_submission db chat
  let form := build_form_data subs
  match outcome with
  | .ok _ => { db := reset_battle db chat, sentForm := form, message := "rankings" }
  | .failed _ => { db := db, sentForm := form, message := evaluationErrorMessage }

/-- Per-chat battle-formation decision of SongBattleBot.check_for_battles
(submissionhandler.py lines 318-336) for one chat not in active_battles:
given that chat's idle rows (user_id, username, wallet) in query order, if
there are at least 2 it keeps those whose Telegram membership check passes
(modelled by the oracle memberValid) and starts a battle with exactly the
valid ones only when their number equals 2 (`len(valid_participants) == 2`);
in every other case no battle is formed this sweep. -/
def check_chat_for_battle (memberValid : Nat → Bool)
    (participants : List (Nat × String × String)) : Option (List Nat) :=
  if 2 ≤ participants.length then
    let valid := participants.filter (fun p => memberValid p.1)
    if valid.length == 2 then some (valid.map (fun p => p.1)) else none
  else none

/-! Orchestrator transition system (submissionhandler.py, SongBattleBot).

The whole-bot behaviour is modelled as a step relation over the participants
table plus the in-memory active_battles set.  Rows carry a ghost field
promo_id recording which promotion (a global counter) activated them; the
Python code has no such field — it is an observer used only to phrase the
one-battle-per-context invariant ("the Active rows of a chat never span two
promotions that were not separated by a reset").  Usernames, wallets and
timestamps are dropped here since no transition guard reads them, and the
Telegram membership oracle of check_for_battles is taken to accept every
candidate (restricting it only removes transitions). -/

/-- Orchestrator-model row: one participants row with the ghost promo_id. -/
structure BRow where
  user_id : Nat
  chat_id : Nat
  audio_file : Option String
  battle_active : Bool
  promo_id : Option Nat
deriving DecidableEq, Repr

/-- Orchestrator-model state: the shared participants table, the in-memory
active_battles set of SongBattleBot (a list without duplicates in practice),
and the ghost counter of promotions performed so far. -/
structure OrchState where
  db : List BRow
  activeBattles : List Nat
  nextPromo : Nat
deriving DecidableEq, Repr

/-- The idle rows of a chat, as selected by get_all_inactive_participants
restricted to that chat (the grouping loop at submissionhandler.py lines
312-316). -/
def idleInChat (db : List BRow) (chat : Nat) : List BRow :=
  db.filter (fun r => r.chat_id == chat && !r.battle_active)

/-- Effect of a successful battle formation in a chat (submissionhandler.py
lines 332-336): activate_battle_for_users on exactly the idle rows of the
chat, then the chat is added to active_battles.  The ghost promo_id of the
activated rows is set to the current promotion counter. -/
def promoteChat (s : OrchState) (chat : Nat) : OrchState :=
  { db := s.db.map (fun r =>
      if r.chat_id == chat && !r.battle_active then
        { r with battle_active := true, promo_id := some s.nextPromo }
      else r),
    activeBattles := chat :: s.activeBattles,
    nextPromo := s.nextPromo + 1 }

/-- check_all_participants_submitted restated on orchestrator-model rows
(submissionhandler.py lines 175-193). -/
def battleAllSubmitted (db : List BRow) (chat : Nat) : Bool :=
  (db.countP (fun r => r.chat_id == chat && r.battle_active && r.audio_file.isNone)) == 0

/-- reset_battle restated on orchestrator-model rows (submissionhandler.py
lines 220-235): the active rows of the chat are deleted. -/
def resetChat (db : List BRow) (chat : Nat) : List BRow :=
  db.filter (fun r => !(r.chat_id == chat && r.battle_active))

/-- Recording an audio submission for a user in a chat: the row keyed
(user_id, chat_id) receives the blob. -/
def submitAudio (db : List BRow) (uid chat : Nat) (a : String) : List BRow :=
  db.map (fun r =>
    if r.user_id == uid && r.chat_id == chat then { r with audio_file := some a }
    else r)

/-- One step of the orchestrator interleaved with its environment:
registration of a fresh idle participant (rows enter the shared table idle,
awaiting a sweep), a matchmaker sweep that forms a battle in an unguarded
chat with exactly two idle candidates (submissionhandler.py lines 306-341), a
submission recorded for an active participant, and the two endings of a
monitor task once all active rows of its chat have audio (lines 366-391 and
393-555): on evaluator success reset_battle runs and the finally block drops
the chat from active_battles; on evaluator failure only the failure notice is
sent, the table keeps its active rows, and the finally block still drops the
chat from active_battles. -/
inductive Step : OrchState → OrchState → Prop where
  | register (s : OrchState) (uid chat : Nat)
      (hfresh : s.db.all (fun r => !(r.user_id == uid && r.chat_id == chat)) = true) :
      Step s { s with db := s.db ++ [⟨uid, chat, none, false, none⟩] }
  | sweep (s : OrchState) (chat : Nat)
      (hguard : chat ∉ s.activeBattles)
      (hquorum : (idleInChat s.db chat).length = 2) :
      Step s (promoteChat s chat)
  | submit (s : OrchState) (uid chat : Nat) (a : String)
      (hactive : s.db.any (fun r => r.user_id == uid && r.chat_id == chat && r.battle_active) = true) :
      Step s { s with db := submitAudio s.db uid chat a }
  | evalSuccess (s : OrchState) (chat : Nat)
      (hguard : chat ∈ s.activeBattles)
      (hall : battleAllSubmitted s.db chat = true) :
      Step s { s with db := resetChat s.db chat,
                      activeBattles := s.activeBattles.erase chat }
  | evalFailure (s : OrchState) (chat : Nat)
      (hguard : chat ∈ s.activeBattles)
      (hall : battleAllSubmitted s.db chat = true) :
      Step s { s with activeBattles := s.activeBattles.erase chat }

/-- The orchestrator starts with an empty table and no active battles. -/
def initState : OrchState := { db := [], activeBattles := [], nextPromo := 0 }

/-- States the orchestrator can reach from the initial state. -/
def Reachable (s : OrchState) : Prop := Relation.ReflTransGen Step initState s

/-- Decidable observer: some chat currently has two active rows stemming from
two distinct promotions, i.e. the Active set of that chat spans two
promotions that no reset separated. -/
def multiPromoActive (s : OrchState) : Bool :=
  s.db.any (fun r1 => s.db.any (fun r2 =>
    r1.chat_id == r2.chat_id && r1.battle_active && r2.battle_active &&
      r1.promo_id != r2.promo_id))

/-! Theorems for the claims. -/

/-- Claim C10: check_all_participants_submitted is vacuously true for an empty
battle: whenever no row of the chat is battle-active, it returns true. -/
theorem check_all_participants_submitted_vacuous (db : List Row) (chat : Nat)
    (h : ∀ r ∈ db, r.chat_id = chat → r.battle_active = false) :
    check_all_participants_submitted db chat = true := by
  simp only [check_all_participants_submitted, beq_iff_eq, List.countP_eq_zero]
  intro r hr
  simp only [Bool.and_eq_true, beq_iff_eq, Option.isNone_iff_eq_none, not_and]
  rintro ⟨hc, hb⟩
  exact absurd hb (by simp [h r hr hc])

/-- Witness for C10: a store holding one idle row in chat 5 and one active row
in chat 6 has check_all_participants_submitted true for chat 5. -/
theorem check_all_participants_submitted_vacuous_witness :
    check_all_participants_submitted
      [{ user_id := 1, username := "ann", wallet_address := "0xA1", audio_file := none,
         chat_id := 5, verified := true, battle_start_timestamp := none,
         battle_active := false },
       { user_id := 2, username := "ben", wallet_address := "0xB2",
         audio_file := some "blob", chat_id := 6, verified := true,
         battle_start_timestamp := some 3, battle_active := true }] 5 = true :=
  check_all_participants_submitted_vacuous _ 5 (by decide)

/-- Idle but unverified row used to refute claim C8. -/
def c8Row : Row :=
  { user_id := 7, username := "eve", wallet_address := "0xE", audio_file := none,
    chat_id := 2, verified := false, battle_start_timestamp := none,
    battle_active := false }

/-- Counterexample to claim C8 as stated: c8Row is idle but has verified =
false, yet get_all_inactive_participants returns it — the query never looks at
the verified column, so an unverified idle row does appear. -/
theorem get_all_inactive_returns_unverified :
    c8Row.verified = false ∧
    (7, "eve", "0xE", 2) ∈ get_all_inactive_participants [c8Row] := by
  constructor
  · rfl
  · simp [get_all_inactive_participants, c8Row, List.mergeSort_singleton]

/-- Claim C8 as amended: get_all_inactive_participants returns exactly the
projections of the rows with battle_active = false, regardless of the verified
flag: a tuple is in the result iff some stored row with battle_active = false
projects to it. -/
theorem get_all_inactive_participants_iff (db : List Row)
    (t : Nat × String × String × Nat) :
    t ∈ get_all_inactive_participants db ↔
      ∃ r ∈ db, r.battle_active = false ∧
        (r.user_id, r.username, r.wallet_address, r.chat_id) = t := by
  simp only [get_all_inactive_participants, List.mem_map, List.mem_mergeSort,
    List.mem_filter, Bool.not_eq_true']
  constructor
  · rintro ⟨r, ⟨hr, hb⟩, he⟩
    exact ⟨r, hr, hb, he⟩
  · rintro ⟨r, hr, hb, he⟩
    exact ⟨r, ⟨hr, hb⟩, he⟩

/-- Active battle row used to refute claim C2. -/
def c2Row : Row :=
  { user_id := 1, username := "amy", wallet_address := "0xAA",
    audio_file := some "blob", chat_id := 1, verified := true,
    battle_start_timestamp := some 4, battle_active := true }

/-- Counterexample to claim C2 as stated: c2Row is Active in chat 1, but
after reset_battle for that chat the table is empty — the row does not still
exist in an idle state, it is deleted. -/
theorem reset_battle_removes_rows :
    c2Row.battle_active = true ∧ reset_battle [c2Row] 1 = [] := by decide

/-- Claim C2 as amended: reset_battle for a chat deletes every Active row of
that chat — an Active row of the chat is gone from the result, while every
row that is in another chat or not Active survives unchanged, and no surviving
row of the chat is Active. -/
theorem reset_battle_spec (db : List Row) (chat : Nat) :
    (∀ r ∈ reset_battle db chat, r.chat_id = chat → r.battle_active = false) ∧
    (∀ r ∈ db, r.chat_id = chat → r.battle_active = true →
      r ∉ reset_battle db chat) ∧
    (∀ r ∈ db, ¬(r.chat_id = chat ∧ r.battle_active = true) →
      r ∈ reset_battle db chat) := by
  refine ⟨?_, ?_, ?_⟩
  · intro r hr hc
    simp only [reset_battle, List.mem_filter, Bool.not_eq_true', Bool.and_eq_false_iff,
      beq_iff_eq, beq_eq_false_iff_ne] at hr
    rcases hr.2 with h | h
    · exact absurd hc h
    · exact h
  · intro r hr hc hb hmem
    simp only [reset_battle, List.mem_filter, Bool.not_eq_true', Bool.and_eq_false_iff,
      beq_iff_eq, beq_eq_false_iff_ne] at hmem
    rcases hmem.2 with h | h
    · exact h hc
    · exact absurd hb (by simp [h])
  · intro r hr h
    simp only [reset_battle, List.mem_filter, Bool.not_eq_true', Bool.and_eq_false_iff,
      beq_iff_eq, beq_eq_false_iff_ne]
    refine ⟨hr, ?_⟩
    by_cases hc : r.chat_id = chat
    · right
      rcases Bool.eq_false_or_eq_true r.battle_active with hb | hb
      · exact absurd ⟨hc, hb⟩ h
      · exact hb
    · left
      exact hc

/-- Witness for C2 (amended): the Active row c2Row of chat 1 is no longer
present after reset_battle. -/
theorem reset_battle_spec_witness : c2Row ∉ reset_battle [c2Row] 1 :=
  (reset_battle_spec [c2Row] 1).2.1 c2Row (by decide) (by decide) (by decide)

/-- Idle row used to refute claim C3: user 1 exists in chat 1, user 2 does
not. -/
def c3Row : Row :=
  { user_id := 1, username := "cal", wallet_address := "0xC1", audio_file := none,
    chat_id := 1, verified := true, battle_start_timestamp := none,
    battle_active := false }

/-- Counterexample to claim C3 as stated: promoting the target set {1, 2} in
chat 1 when user 2 has no row must, per the claim, return false and change no
row; the code instead returns true and promotes user 1 alone — a partial
promotion. -/
theorem activate_battle_partial_promotion :
    (¬ ∃ r ∈ [c3Row], r.user_id = 2) ∧
    (activate_battle_for_users [c3Row] [1, 2] 1 7).2 = true ∧
    (activate_battle_for_users [c3Row] [1, 2] 1 7).1 =
      [{ c3Row with battle_active := true, battle_start_timestamp := some 7 }] := by
  refine ⟨by decide, rfl, by decide⟩

/-- Claim C3 as amended: activate_battle_for_users always reports success,
and updates row-by-row with no precondition: every stored row whose user_id is
in the target list and whose chat matches is set Active with the fresh
timestamp (whatever its previous state), every other row is kept unchanged,
and targets with no matching row are silently ignored. -/
theorem activate_battle_for_users_spec (db : List Row) (ids : List Nat)
    (chat now : Nat) :
    (activate_battle_for_users db ids chat now).2 = true ∧
    ∀ r ∈ db,
      (ids.contains r.user_id = true → r.chat_id = chat →
        { r with battle_active := true, battle_start_timestamp := some now } ∈
          (activate_battle_for_users db ids chat now).1) ∧
      (¬(ids.contains r.user_id = true ∧ r.chat_id = chat) →
        r ∈ (activate_battle_for_users db ids chat now).1) := by
  refine ⟨rfl, ?_⟩
  intro r hr
  constructor
  · intro h1 h2
    simp only [activate_battle_for_users, List.mem_map]
    refine ⟨r, hr, ?_⟩
    have hcond : (ids.contains r.user_id && r.chat_id == chat) = true := by
      rw [h1, Bool.true_and]
      exact beq_iff_eq.mpr h2
    rw [if_pos hcond]
  · intro h
    simp only [activate_battle_for_users, List.mem_map]
    refine ⟨r, hr, ?_⟩
    have hcond : (ids.contains r.user_id && r.chat_id == chat) = false := by
      rcases Bool.eq_false_or_eq_true (ids.contains r.user_id) with hi | hi
      · have hc : ¬ r.chat_id = chat := fun hc => h ⟨hi, hc⟩
        rw [hi, Bool.true_and]
        exact beq_eq_false_iff_ne.mpr hc
      · rw [hi, Bool.false_and]
    rw [if_neg (show ¬((ids.contains r.user_id && r.chat_id == chat) = true) by
      rw [hcond]; exact Bool.false_ne_true)]

/-- Witness for C3 (amended): with the single idle row c3Row and target list
[1], the promoted copy of c3Row is in the resulting table. -/
theorem activate_battle_for_users_spec_witness :
    { c3Row with battle_active := true, battle_start_timestamp := some 7 } ∈
      (activate_battle_for_users [c3Row] [1] 1 7).1 :=
  ((activate_battle_for_users_spec [c3Row] [1] 1 7).2 c3Row (by decide)).1
    (by decide) (by decide)

/-- Existing but idle musicgenbot row used to refute claim C5. -/
def c5Row : MRow :=
  { user_id := 1, username := "dan", wallet_address := "0xD",
    audio_filename := none, audio_data := none, chat_id := 1, verified := true,
    battle_start_timestamp := none, battle_active := false }

/-- Counterexample to claim C5 as stated: c5Row exists with battle_active =
false, yet m_update_participant_audio reports success and stores the blob on
the idle row — no NotInBattle rejection, the submission field is changed. -/
theorem m_update_participant_audio_accepts_idle :
    c5Row.battle_active = false ∧
    m_update_participant_audio [c5Row] 1 "blob" "t.mp3" =
      ([{ c5Row with audio_data := some "blob", audio_filename := some "t.mp3" }],
       true, "Audio file updated successfully") := by decide

/-- Claim C5 as amended: the musicgenbot update_participant_audio looks only
at row existence — when some row carries the user id it reports success and
stores the blob on every row of that user id regardless of battle_active;
only when no row exists does it reject, leaving the table unchanged, with
"Participant not found".  The stakingbot variant updates only active rows but
signals nothing: an idle row survives it unchanged. -/
theorem update_participant_audio_spec :
    (∀ (db : List MRow) (uid : Nat) (d n : String),
      ((∃ r ∈ db, r.user_id = uid) →
        (m_update_participant_audio db uid d n).2 =
          (true, "Audio file updated successfully") ∧
        ∀ r ∈ db, r.user_id = uid →
          { r with audio_data := some d, audio_filename := some n } ∈
            (m_update_participant_audio db uid d n).1) ∧
      ((∀ r ∈ db, ¬ r.user_id = uid) →
        m_update_participant_audio db uid d n = (db, false, "Participant not found"))) ∧
    (∀ (db : List SRow) (uid : Nat) (f : String),
      ∀ r ∈ db, r.battle_active = false → r ∈ s_update_participant_audio db uid f) := by
  constructor
  · intro db uid d n
    constructor
    · rintro ⟨r0, hr0, h0⟩
      have hcnt : (db.countP (fun r => r.user_id == uid) == 0) = false := by
        have hpos : 0 < db.countP (fun r => r.user_id == uid) :=
          List.countP_pos_iff.mpr ⟨r0, hr0, beq_iff_eq.mpr h0⟩
        simp [Nat.pos_iff_ne_zero.mp hpos]
      constructor
      · simp only [m_update_participant_audio, hcnt, Bool.false_eq_true, if_false]
      · intro r hr h
        simp only [m_update_participant_audio, hcnt, Bool.false_eq_true, if_false,
          List.mem_map]
        refine ⟨r, hr, ?_⟩
        rw [if_pos (beq_iff_eq.mpr h)]
    · intro h
      have hcnt : db.countP (fun r => r.user_id == uid) = 0 :=
        List.countP_eq_zero.mpr (fun r hr => by simp [h r hr])
      simp [m_update_participant_audio, hcnt]
  · intro db uid f r hr hb
    simp only [s_update_participant_audio, List.mem_map]
    refine ⟨r, hr, ?_⟩
    rw [if_neg (show ¬((r.user_id == uid && r.battle_active) = true) by
      rw [hb, Bool.and_false]; exact Bool.false_ne_true)]

/-- Witness for C5 (amended): the updated copy of the idle row c5Row is in the
table produced by a successful m_update_participant_audio call. -/
theorem update_participant_audio_spec_witness :
    { c5Row with audio_data := some "b", audio_filename := some "n" } ∈
      (m_update_participant_audio [c5Row] 1 "b" "n").1 :=
  ((update_participant_audio_spec.1 [c5Row] 1 "b" "n").1
      ⟨c5Row, by decide, rfl⟩).2 c5Row (by decide) rfl

/-- The row inserted by add_participant for user 1, username ann, wallet 0xA
at time 3. -/
def c7Row : SRow :=
  { user_id := 1, username := "ann", wallet_address := "0xA", audio_file := none,
    verified := true, battle_start_timestamp := some 3, battle_active := true }

/-- Counterexample to claim C7 as stated: registering into an empty store
leaves a single row whose battle_active is true — the participant is upserted
as Active with a set battle_start_timestamp, not as Idle. -/
theorem add_participant_inserts_active :
    add_participant [] 1 "ann" "0xA" 3 = [c7Row] ∧ c7Row.battle_active = true := by
  decide

/-- Claim C7 as amended: add_participant upserts the participant as verified
and ACTIVE (battle_active = true, battle_start_timestamp = now), clearing any
stale submission (audio_file = none); exactly one row with the user id remains
and repeating the call with the same arguments changes nothing (idempotent per
user id — the stakingbot table is keyed by user_id alone and has no context
column). -/
theorem add_participant_spec (db : List SRow) (uid : Nat) (u w : String)
    (now : Nat) :
    ((add_participant db uid u w now).countP (fun r => r.user_id == uid) = 1) ∧
    (∀ r ∈ add_participant db uid u w now, r.user_id = uid →
      r = { user_id := uid, username := u, wallet_address := w, audio_file := none,
            verified := true, battle_start_timestamp := some now,
            battle_active := true }) ∧
    (add_participant (add_participant db uid u w now) uid u w now =
      add_participant db uid u w now) := by
  refine ⟨?_, ?_, ?_⟩
  · rw [add_participant, List.countP_append]
    have h0 : (db.filter (fun r => !(r.user_id == uid || r.wallet_address == w))).countP
        (fun r => r.user_id == uid) = 0 := by
      refine List.countP_eq_zero.mpr ?_
      intro r hr
      rcases List.mem_filter.mp hr with ⟨-, hp⟩
      simp only [Bool.not_eq_true', Bool.or_eq_false_iff] at hp
      simp [hp.1]
    rw [h0]
    simp
  · intro r hr huid
    rcases List.mem_append.mp hr with hl | hl
    · rcases List.mem_filter.mp hl with ⟨-, hp⟩
      simp only [Bool.not_eq_true', Bool.or_eq_false_iff, beq_eq_false_iff_ne] at hp
      exact absurd huid hp.1
    · rcases List.mem_singleton.mp hl with rfl
      rfl
  · rw [add_participant, add_participant, List.filter_append, List.filter_filter]
    have hsingle : (List.filter (fun r => !(r.user_id == uid || r.wallet_address == w))
        [({ user_id := uid, username := u, wallet_address := w, audio_file := none,
            verified := true, battle_start_timestamp := some now,
            battle_active := true } : SRow)]) = [] := by simp
    rw [hsingle, List.append_nil]
    congr 1
    apply List.filter_congr
    intro r hr
    simp [Bool.and_self]

/-- Witness for C7 (amended): after registering user 1 into an empty store,
that sole row equals the inserted active row. -/
theorem add_participant_spec_witness :
    c7Row = { user_id := 1, username := "ann", wallet_address := "0xA",
              audio_file := none, verified := true,
              battle_start_timestamp := some 3, battle_active := true } :=
  (add_participant_spec [] 1 "ann" "0xA" 3).2.1 c7Row (by decide) (by decide)

/-- Counterexample to claim C9 as stated: three idle candidates in a chat, all
passing the membership check, exceed the quorum Q = 2; per the claim the first
two should still be promoted, but check_for_battles requires
len(valid_participants) == 2 and so forms no battle at all. -/
theorem check_chat_for_battle_three_candidates :
    (([(1, "a", "0xa"), (2, "b", "0xb"), (3, "c", "0xc")].filter
        (fun p => (fun _ => true) p.1)).length > 2) ∧
    check_chat_for_battle (fun _ => true)
      [(1, "a", "0xa"), (2, "b", "0xb"), (3, "c", "0xc")] = none := by decide

/-- Claim C9 as amended: a sweep forms a battle in a chat only when the number
of valid candidates is exactly 2: whenever it differs from 2 — in particular
whenever it exceeds the quorum — no battle is formed that sweep and everyone
stays idle; when at least two rows are idle and exactly 2 candidates are valid,
the battle consists of exactly those valid candidates in result order. -/
theorem check_chat_for_battle_spec (f : Nat → Bool)
    (ps : List (Nat × String × String)) :
    ((ps.filter (fun p => f p.1)).length ≠ 2 → check_chat_for_battle f ps = none) ∧
    (2 ≤ ps.length → (ps.filter (fun p => f p.1)).length = 2 →
      check_chat_for_battle f ps =
        some ((ps.filter (fun p => f p.1)).map (fun p => p.1))) := by
  constructor
  · intro h
    unfold check_chat_for_battle
    split
    · rw [if_neg (show ¬(((ps.filter (fun p => f p.1)).length == 2) = true) by
        simpa using h)]
    · rfl
  · intro h1 h2
    unfold check_chat_for_battle
    rw [if_pos h1, if_pos (by simpa using h2)]

/-- Witness for C9 (amended): with exactly two valid candidates the battle is
formed with precisely those two user ids. -/
theorem check_chat_for_battle_spec_witness :
    check_chat_for_battle (fun _ => true) [(1, "a", "0xa"), (2, "b", "0xb")] =
      some [1, 2] :=
  (check_chat_for_battle_spec (fun _ => true) [(1, "a", "0xa"), (2, "b", "0xb")]).2
    (by decide) (by decide)

/-- There is exactly one audio part per submission. -/
theorem audio_fields_length (k : Nat) (subs : List SubmissionEntry) :
    (audio_fields k subs).length = subs.length := by
  induction subs generalizing k with
  | nil => rfl
  | cons s rest ih => simp [audio_fields, ih]

/-- There is exactly one wallet part per submission. -/
theorem wallet_fields_length (k : Nat) (subs : List SubmissionEntry) :
    (wallet_fields k subs).length = subs.length := by
  induction subs generalizing k with
  | nil => rfl
  | cons s rest ih => simp [wallet_fields, ih]

/-- The audio part at offset i of the block starting at index k is built from
the submission at position i. -/
theorem audio_fields_getElem (k : Nat) (subs : List SubmissionEntry) (i : Nat) :
    (audio_fields k subs)[i]? = (subs[i]?).map (fun s => audio_field (k + i) s) := by
  induction subs generalizing k i with
  | nil => simp [audio_fields]
  | cons s rest ih =>
    cases i with
    | zero => simp [audio_fields]
    | succ j =>
      simp only [audio_fields, List.getElem?_cons_succ, ih (k + 1) j]
      have : k + 1 + j = k + (j + 1) := by omega
      rw [this]

/-- The wallet part at offset i of the block starting at index k is built from
the submission at position i. -/
theorem wallet_fields_getElem (k : Nat) (subs : List SubmissionEntry) (i : Nat) :
    (wallet_fields k subs)[i]? = (subs[i]?).map (fun s => wallet_field (k + i) s) := by
  induction subs generalizing k i with
  | nil => simp [wallet_fields]
  | cons s rest ih =>
    cases i with
    | zero => simp [wallet_fields]
    | succ j =>
      simp only [wallet_fields, List.getElem?_cons_succ, ih (k + 1) j]
      have : k + 1 + j = k + (j + 1) := by omega
      rw [this]

/-- Claim C6: for a submission list of length N the multipart payload has
exactly N audio parts followed by exactly N wallet parts, and for every
position i the i-th part of the payload is the audio part built from
submission i while the (N+i)-th part is the wallet part built from the very
same submission i — the positional pairing of files with wallets follows the
store snapshot order. -/
theorem build_form_data_spec (subs : List SubmissionEntry) (i : Nat)
    (hi : i < subs.length) :
    (build_form_data subs).length = 2 * subs.length ∧
    (audio_fields 0 subs).length = subs.length ∧
    (wallet_fields 0 subs).length = subs.length ∧
    (build_form_data subs)[i]? = (subs[i]?).map (fun s => audio_field i s) ∧
    (build_form_data subs)[subs.length + i]? =
      (subs[i]?).map (fun s => wallet_field i s) := by
  have hal := audio_fields_length 0 subs
  have hwl := wallet_fields_length 0 subs
  refine ⟨?_, hal, hwl, ?_, ?_⟩
  · simp only [build_form_data, List.length_append, hal, hwl]
    omega
  · rw [build_form_data, List.getElem?_append_left (by rw [hal]; exact hi),
      audio_fields_getElem]
    simp
  · rw [build_form_data, List.getElem?_append_right (by rw [hal]; omega),
      hal]
    have : subs.length + i - subs.length = i := by omega
    rw [this, wallet_fields_getElem]
    simp

/-- Witness for C6: on a concrete two-submission list, part 1 is the audio of
submission 1 and part 3 (= N + 1) is the wallet of the same submission. -/
theorem build_form_data_spec_witness :
    (build_form_data [{ wallet_address := "0xW1", audio_file := "b1" },
                      { wallet_address := "0xW2", audio_file := "b2" }]).length =
      2 * ([{ wallet_address := "0xW1", audio_file := "b1" },
            { wallet_address := "0xW2", audio_file := "b2" }] :
              List SubmissionEntry).length ∧
    (audio_fields 0 [{ wallet_address := "0xW1", audio_file := "b1" },
                     { wallet_address := "0xW2", audio_file := "b2" }]).length = 2 ∧
    (wallet_fields 0 [{ wallet_address := "0xW1", audio_file := "b1" },
                      { wallet_address := "0xW2", audio_file := "b2" }]).length = 2 ∧
    (build_form_data [{ wallet_address := "0xW1", audio_file := "b1" },
                      { wallet_address := "0xW2", audio_file := "b2" }])[1]? =
      some (audio_field 1 { wallet_address := "0xW2", audio_file := "b2" }) ∧
    (build_form_data [{ wallet_address := "0xW1", audio_file := "b1" },
                      { wallet_address := "0xW2", audio_file := "b2" }])[3]? =
      some (wallet_field 1 { wallet_address := "0xW2", audio_file := "b2" }) :=
  build_form_data_spec
    [{ wallet_address := "0xW1", audio_file := "b1" },
     { wallet_address := "0xW2", audio_file := "b2" }] 1 (by decide)

/-- First active, fully submitted row of the battle used for claim C1. -/
def c1RowA : Row :=
  { user_id := 1, username := "ada", wallet_address := "0xA",
    audio_file := some "blobA", chat_id := 1, verified := true,
    battle_start_timestamp := some 5, battle_active := true }

/-- Second active, fully submitted row of the battle used for claim C1. -/
def c1RowB : Row :=
  { user_id := 2, username := "bob", wallet_address := "0xB",
    audio_file := some "blobB", chat_id := 1, verified := true,
    battle_start_timestamp := some 5, battle_active := true }

/-- Claim C1, evaluated at the failing input: when the evaluator call fails
(here: the non-200 raise), submit_to_evaluation does send the failure notice
to the chat, but the participants table is returned UNCHANGED — both rows of
the battle are still battle_active, so the store rows are not reset; only the
success branch reaches reset_battle (which would empty the table, as the last
conjunct shows). -/
theorem submit_to_evaluation_failure_leaves_active :
    (submit_to_evaluation [c1RowA, c1RowB] 1
        (.failed "API returned status code 500")).message = evaluationErrorMessage ∧
    (submit_to_evaluation [c1RowA, c1RowB] 1
        (.failed "API returned status code 500")).db = [c1RowA, c1RowB] ∧
    c1RowA.battle_active = true ∧ c1RowB.battle_active = true ∧
    (submit_to_evaluation [c1RowA, c1RowB] 1
        (.ok { winner_wallet := "0xA", winning_track := "track1.mp3" })).db = [] := by
  decide

/-- Intermediate states of the trace refuting the per-context
single-active-battle invariant: two users register in chat 1, a sweep promotes
them (promotion 0), both submit, the evaluator fails (the guard is dropped but
the rows stay Active), two further users register, and a second sweep promotes
them (promotion 1) while the first pair is still Active. -/
def c4s1 : OrchState := { initState with db := initState.db ++ [⟨1, 1, none, false, none⟩] }

/-- Trace state after the second registration. -/
def c4s2 : OrchState := { c4s1 with db := c4s1.db ++ [⟨2, 1, none, false, none⟩] }

/-- Trace state after the first sweep promotes users 1 and 2. -/
def c4s3 : OrchState := promoteChat c4s2 1

/-- Trace state after user 1 submits a track. -/
def c4s4 : OrchState := { c4s3 with db := submitAudio c4s3.db 1 1 "trackA" }

/-- Trace state after user 2 submits a track. -/
def c4s5 : OrchState := { c4s4 with db := submitAudio c4s4.db 2 1 "trackB" }

/-- Trace state after the evaluator failure: only the in-memory guard is
cleared, the table keeps its Active rows. -/
def c4s6 : OrchState := { c4s5 with activeBattles := c4s5.activeBattles.erase 1 }

/-- Trace state after the third registration. -/
def c4s7 : OrchState := { c4s6 with db := c4s6.db ++ [⟨3, 1, none, false, none⟩] }

/-- Trace state after the fourth registration. -/
def c4s8 : OrchState := { c4s7 with db := c4s7.db ++ [⟨4, 1, none, false, none⟩] }

/-- Final trace state: the second sweep promotes users 3 and 4 while users 1
and 2 are still Active from promotion 0. -/
def c4s9 : OrchState := promoteChat c4s8 1

/-- Claim C4, evaluated at the failing trace: the orchestrator can reach a
state in which the Active rows of chat 1 span two distinct promotions with no
reset in between — after an evaluator failure the in-memory guard is cleared
while the store rows stay Active, so the next sweep forms a second battle in
the same context on top of the leftover one. -/
theorem two_promotions_active_reachable :
    Reachable c4s9 ∧ multiPromoActive c4s9 = true := by
  constructor
  · have h1 : Step initState c4s1 := Step.register initState 1 1 (by decide)
    have h2 : Step c4s1 c4s2 := Step.register c4s1 2 1 (by decide)
    have h3 : Step c4s2 c4s3 := Step.sweep c4s2 1 (by decide) (by decide)
    have h4 : Step c4s3 c4s4 := Step.submit c4s3 1 1 "trackA" (by decide)
    have h5 : Step c4s4 c4s5 := Step.submit c4s4 2 1 "trackB" (by decide)
    have h6 : Step c4s5 c4s6 := Step.evalFailure c4s5 1 (by decide) (by decide)
    have h7 : Step c4s6 c4s7 := Step.register c4s6 3 1 (by decide)
    have h8 : Step c4s7 c4s8 := Step.register c4s7 4 1 (by decide)
    have h9 : Step c4s8 c4s9 := Step.sweep c4s8 1 (by decide) (by decide)
    exact Relation.ReflTransGen.tail (Relation.ReflTransGen.tail
      (Relation.ReflTransGen.tail (Relation.ReflTransGen.tail
        (Relation.ReflTransGen.tail (Relation.ReflTransGen.tail
          (Relation.ReflTransGen.tail (Relation.ReflTransGen.tail
            (Relation.ReflTransGen.tail Relation.ReflTransGen.refl h1)
          h2) h3) h4) h5) h6) h7) h8) h9
  · decide
